import Mathlib

/-!
Verification of the clinical-note synthesis core of the Agent-elektron backend.

The development shallowly embeds the Python sources
`backend/app/services/soap_generator.py`, `backend/app/services/whisper_service.py`
and the `/soap/generate` + `/soap/refine` handlers of `backend/app/routes/soapgen.py`.

Modelling conventions:
* Python strings are Lean `String`s; the Python string primitives used by the
  code (`str.strip`, `str.split`, `str.lower`, substring `in`, slicing,
  `re.sub` on whitespace runs and on leading non-word characters) are defined
  below over the underlying character list, restricted to ASCII semantics,
  which covers every literal the code manipulates.
* The generative backend (`self.generator`) is a value of type
  `Option Generator`: `none` models a backend that failed to load, and a call
  `g prompt = none` models the call raising an exception (the source wraps
  every call in `try/except`).  All other code in the service is exception
  free, so the whole-pipeline `except` branch of `generate_soap_note`
  (source lines 66-68) is unreachable in the model.
* Python floats only appear as the constants 0.85 / 0.75 and the Whisper
  log-probabilities; they are modelled as `Rat`.
* `None`-able inputs are `Option` values; Python truthiness of `0` and `""`
  is modelled explicitly in `pyOrInt` / `pyOrStr`.
-/

/-! ## Python string primitives (ASCII model) -/

/-- Characters counted as whitespace by `str.strip` / `str.split` / `\s`
(ASCII fragment). -/
def pyIsSpace (c : Char) : Bool := c.isWhitespace

/-- Python `str.lower` (ASCII model). -/
def pyLower (s : String) : String := ⟨s.data.map Char.toLower⟩

/-- Python slicing `s[:n]` (character based). -/
def pyTake (n : Nat) (s : String) : String := ⟨s.data.take n⟩

/-- Membership of one list inside another as a contiguous run; this is the
meaning of Python `needle in haystack` on strings. -/
def listIsInfix (needle : List Char) : List Char → Bool
  | [] => needle.isEmpty
  | c :: rest => needle.isPrefixOf (c :: rest) || listIsInfix needle rest

/-- Python `needle in haystack` on strings. -/
def strContains (haystack needle : String) : Bool :=
  listIsInfix needle.data haystack.data

/-- Python `str.strip()` with no argument: remove leading and trailing
whitespace. -/
def pyStrip (s : String) : String :=
  ⟨((s.data.dropWhile pyIsSpace).reverse.dropWhile pyIsSpace).reverse⟩

/-- Helper for `pyWords`: split on whitespace runs, discarding empty pieces;
`cur` is the (reversed) word currently being scanned. -/
def pySplitWsAux : List Char → List Char → List (List Char)
  | [], cur => if cur = [] then [] else [cur.reverse]
  | c :: rest, cur =>
    if pyIsSpace c then
      if cur = [] then pySplitWsAux rest []
      else cur.reverse :: pySplitWsAux rest []
    else pySplitWsAux rest (c :: cur)

/-- Python `str.split()` with no argument: the whitespace-delimited tokens,
with no empty tokens. -/
def pyWords (s : String) : List String :=
  (pySplitWsAux s.data []).map fun w => ⟨w⟩

/-- Helper for `re.sub(r'\s+', ' ', text)`: collapse each maximal whitespace
run into a single space; `prevWs` records whether the previous character was
part of a run already emitted. -/
def collapseWsAux : List Char → Bool → List Char
  | [], _ => []
  | c :: rest, prevWs =>
    if pyIsSpace c then
      if prevWs then collapseWsAux rest true
      else ' ' :: collapseWsAux rest true
    else c :: collapseWsAux rest false

/-- Python `\w` (ASCII model): letters, digits, underscore. -/
def pyIsWordChar (c : Char) : Bool := c.isAlphanum || c == '_'

/-- Fuel-driven scanner for Python `s.split(sep)` with a non-empty separator:
left-to-right, non-overlapping, keeping empty pieces; `cur` is the (reversed)
piece being scanned.  One unit of fuel per examined position; the callers pass
the text length, which always suffices. -/
def pySplitOnFuel (sep : List Char) : Nat → List Char → List Char → List (List Char)
  | _, [], cur => [cur.reverse]
  | 0, l, cur => [cur.reverse ++ l]
  | fuel + 1, c :: rest, cur =>
    if sep.isPrefixOf (c :: rest) then
      cur.reverse :: pySplitOnFuel sep fuel (rest.drop (sep.length - 1)) []
    else pySplitOnFuel sep fuel rest (c :: cur)

/-- Python `s.split(sep)` for a non-empty separator. -/
def pySplitOn (s sep : String) : List String :=
  (pySplitOnFuel sep.data s.data.length s.data []).map fun piece => ⟨piece⟩

/-- Python `s.split(sep)[-1]` for a non-empty separator: the piece after the
last separator occurrence (the whole string when the separator is absent;
the split list is never empty, so the default is dead). -/
def splitLast (s sep : String) : String := (pySplitOn s sep).getLastD ""

/-- Python `min(a, b)` (first argument on ties). -/
def pyMin (a b : Rat) : Rat := if a ≤ b then a else b

/-- Python `max(a, b)` (first argument on ties). -/
def pyMax (a b : Rat) : Rat := if b ≤ a then a else b

/-! ## Embedding of `services/soap_generator.py` -/

/-- The generative backend: a prompt-to-text function; `none` models the call
raising an exception. -/
def Generator : Type := String → Option String

/-- The context dictionary built by `_prepare_context` /
`_generate_template_soap`.  The Python dict stores the age entry either as the
caller's integer or as the string `"unknown"`; it is modelled as the decimal
rendering of the integer, which the later `!= "unknown"` comparison
distinguishes exactly as Python does (int vs str compares unequal).  The
template-path context has no `doctor_notes` entry; it is modelled as `""`,
which no template consumer reads. -/
structure Ctx where
  transcript : String
  age : String
  gender : String
  chief_complaint : String
  doctor_notes : String
  medical_keywords : List (String × List String)

/-- The dict returned by `generate_soap_note` / `_generate_template_soap`:
four section strings plus the fixed confidence constant. -/
structure GenResult where
  subjective : String
  objective : String
  assessment : String
  plan : String
  confidence_score : Rat

/-- Python `x or default` for an optional int field (`0` is falsy). -/
def pyOrInt (v : Option Int) (dflt : String) : String :=
  match v with
  | some a => if a = 0 then dflt else toString a
  | none => dflt

/-- Python `x or default` for an optional string field (`""` is falsy). -/
def pyOrStr (v : Option String) (dflt : String) : String :=
  match v with
  | some s => if s = "" then dflt else s
  | none => dflt

/-- The fixed category lexicon of `_extract_medical_terms` (source lines
202-207). -/
def medical_terms : List (String × List String) :=
  [("symptoms", ["pain", "headache", "fever", "nausea", "fatigue", "dizziness",
                 "shortness of breath", "chest pain", "abdominal pain", "cough"]),
   ("medications", ["aspirin", "ibuprofen", "prescription", "medication", "dose"]),
   ("anatomy", ["heart", "lungs", "stomach", "head", "chest", "back", "arm", "leg"])]

/-- `SOAPGeneratorService._extract_medical_terms`. -/
def extract_medical_terms (text : String) : List (String × List String) :=
  let text_lower := pyLower text
  medical_terms.map fun p => (p.1, p.2.filter fun term => strContains text_lower term)

/-- The lexicon list of one category of `medical_terms` (empty for an unknown
category), mirroring `dict.get(category, [])` on the lexicon itself. -/
def lexicon_terms (category : String) : List String :=
  (List.lookup category medical_terms).getD []

/-- Python `context['medical_keywords'].get(key, [])`. -/
def keywordsGet (keywords : List (String × List String)) (key : String) : List String :=
  (List.lookup key keywords).getD []

/-- `SOAPGeneratorService._prepare_context`. -/
def prepare_context (transcript : String) (age : Option Int)
    (gender complaint notes : Option String) : Ctx :=
  { transcript := transcript
    age := pyOrInt age "unknown"
    gender := pyOrStr gender "not specified"
    chief_complaint := pyOrStr complaint "not specified"
    doctor_notes := pyOrStr notes ""
    medical_keywords := extract_medical_terms transcript }

/-- The f-string prompt of `_generate_subjective` (source lines 84-95). -/
def subjective_prompt (context : Ctx) : String :=
  "\n        Based on this patient conversation transcript, write the Subjective section of a SOAP note.\n        Focus on the patient\x27s reported symptoms, concerns, and history.\n        \n        Patient age: "
    ++ context.age
    ++ "\n        Patient gender: " ++ context.gender
    ++ "\n        Chief complaint: " ++ context.chief_complaint
    ++ "\n        \n        Transcript: " ++ pyTake 500 context.transcript
    ++ "...\n        \n        Subjective:\n        "

/-- The f-string prompt of `_generate_objective` (source lines 111-118). -/
def objective_prompt (context : Ctx) : String :=
  "\n        Based on this medical transcript, write the Objective section of a SOAP note.\n        Include vital signs, physical examination findings, and observable data.\n        \n        Transcript: "
    ++ pyTake 500 context.transcript
    ++ "...\n        \n        Objective:\n        "

/-- The f-string prompt of `_generate_assessment` (source lines 134-142). -/
def assessment_prompt (context : Ctx) : String :=
  "\n        Based on this medical information, write the Assessment section of a SOAP note.\n        Provide the most likely diagnosis and clinical reasoning.\n        \n        Chief complaint: "
    ++ context.chief_complaint
    ++ "\n        Key symptoms: " ++ String.intercalate ", " (keywordsGet context.medical_keywords "symptoms")
    ++ "\n        \n        Assessment:\n        "

/-- The f-string prompt of `_generate_plan` (source lines 158-166). -/
def plan_prompt (context : Ctx) : String :=
  "\n        Based on this medical assessment, write the Plan section of a SOAP note.\n        Include treatment recommendations, follow-up, and patient education.\n        \n        Chief complaint: "
    ++ context.chief_complaint
    ++ "\n        Patient age: " ++ context.age
    ++ "\n        \n        Plan:\n        "

/-- `SOAPGeneratorService._clean_generated_text`. -/
def clean_generated_text (text : String) : String :=
  let text := pyStrip ⟨collapseWsAux text.data false⟩
  let text : List Char := text.data.dropWhile fun c => !(pyIsWordChar c)
  match text with
  | [] => ⟨[]⟩
  | c :: rest => if c.isUpper then ⟨c :: rest⟩ else ⟨c.toUpper :: rest⟩

/-- `SOAPGeneratorService._extract_subjective_from_transcript`. -/
def extract_subjective_from_transcript (context : Ctx) : String :=
  let age_str := if context.age ≠ "unknown" then context.age ++ " year old" else ""
  let gender_str := if context.gender ≠ "not specified" then context.gender else ""
  let subjective := age_str ++ " " ++ gender_str ++ " patient presents with "
    ++ context.chief_complaint ++ "."
  let symptoms := keywordsGet context.medical_keywords "symptoms"
  let subjective :=
    if symptoms ≠ [] then
      subjective ++ " Patient reports " ++ String.intercalate ", " (symptoms.take 3) ++ "."
    else subjective
  pyStrip subjective

/-- `SOAPGeneratorService._extract_objective_from_transcript`. -/
def extract_objective_from_transcript (context : Ctx) : String :=
  let objective := "Physical examination performed."
  let transcript := pyLower context.transcript
  let objective :=
    if ["vital signs", "blood pressure", "heart rate"].any (fun word => strContains transcript word) then
      objective ++ " Vital signs documented."
    else objective
  let objective :=
    if ["examination", "exam", "physical"].any (fun word => strContains transcript word) then
      objective ++ " Physical examination findings noted."
    else objective
  objective

/-- `SOAPGeneratorService._generate_assessment_template`. -/
def generate_assessment_template (context : Ctx) : String :=
  let symptoms := keywordsGet context.medical_keywords "symptoms"
  let assessment :=
    match symptoms with
    | primary_symptom :: _ => "Patient presents with " ++ primary_symptom ++ ". "
    | [] => "Patient presents with " ++ context.chief_complaint ++ ". "
  assessment ++ "Further evaluation needed to determine underlying cause."

/-- `SOAPGeneratorService._generate_plan_template`. -/
def generate_plan_template (_context : Ctx) : String :=
  "1. Continue current treatment regimen\n"
    ++ "2. Follow-up appointment in 1-2 weeks\n"
    ++ "3. Patient education provided\n"
    ++ "4. Return if symptoms worsen"

/-- `SOAPGeneratorService._generate_subjective`: model call plus
label-splitting post-processing; the deterministic template is used when the
backend handle is absent or the call raises — an empty post-processed string
is returned as-is. -/
def generate_subjective (generator : Option Generator) (context : Ctx) : String :=
  match generator with
  | some g =>
    match g (subjective_prompt context) with
    | some generated => clean_generated_text (pyStrip (splitLast generated "Subjective:"))
    | none => extract_subjective_from_transcript context
  | none => extract_subjective_from_transcript context

/-- `SOAPGeneratorService._generate_objective`. -/
def generate_objective (generator : Option Generator) (context : Ctx) : String :=
  match generator with
  | some g =>
    match g (objective_prompt context) with
    | some generated => clean_generated_text (pyStrip (splitLast generated "Objective:"))
    | none => extract_objective_from_transcript context
  | none => extract_objective_from_transcript context

/-- `SOAPGeneratorService._generate_assessment`. -/
def generate_assessment (generator : Option Generator) (context : Ctx) : String :=
  match generator with
  | some g =>
    match g (assessment_prompt context) with
    | some generated => clean_generated_text (pyStrip (splitLast generated "Assessment:"))
    | none => generate_assessment_template context
  | none => generate_assessment_template context

/-- `SOAPGeneratorService._generate_plan`. -/
def generate_plan (generator : Option Generator) (context : Ctx) : String :=
  match generator with
  | some g =>
    match g (plan_prompt context) with
    | some generated => clean_generated_text (pyStrip (splitLast generated "Plan:"))
    | none => generate_plan_template context
  | none => generate_plan_template context

/-- `SOAPGeneratorService._generate_template_soap`. -/
def generate_template_soap (transcript : String) (age : Option Int)
    (gender complaint : Option String) : GenResult :=
  let context : Ctx :=
    { transcript := transcript
      age := pyOrInt age "unknown"
      gender := pyOrStr gender "not specified"
      chief_complaint := pyOrStr complaint "chief complaint not specified"
      doctor_notes := ""
      medical_keywords := extract_medical_terms transcript }
  { subjective := extract_subjective_from_transcript context
    objective := extract_objective_from_transcript context
    assessment := generate_assessment_template context
    plan := generate_plan_template context
    confidence_score := 75/100 }

/-- `SOAPGeneratorService.generate_soap_note`: whole-pipeline template
fallback when the backend handle is absent, otherwise one independent
model-backed call per section and the fixed 0.85 confidence. -/
def generate_soap_note (generator : Option Generator) (transcript : String)
    (patient_age : Option Int)
    (patient_gender chief_complaint doctor_notes : Option String) : GenResult :=
  match generator with
  | none => generate_template_soap transcript patient_age patient_gender chief_complaint
  | some g =>
    let context := prepare_context transcript patient_age patient_gender chief_complaint doctor_notes
    { subjective := generate_subjective (some g) context
      objective := generate_objective (some g) context
      assessment := generate_assessment (some g) context
      plan := generate_plan (some g) context
      confidence_score := 85/100 }

/-- The four text fields of a `SOAPNote` read by the refinement path (the
model's timestamp / author / patient-id fields are caller data the core never
reads). -/
structure SOAPNote where
  subjective : String
  objective : String
  assessment : String
  plan : String

/-- The dict returned by `SOAPGeneratorService.refine_soap_note`. -/
structure RefineResult where
  subjective : String
  objective : String
  assessment : String
  plan : String

/-- `SOAPGeneratorService.refine_soap_note`. -/
def refine_soap_note (soap_note : SOAPNote) (refinement_notes : String) : RefineResult :=
  { subjective := soap_note.subjective ++ (" [Refined based on: " ++ refinement_notes ++ "]")
    objective := soap_note.objective
    assessment := soap_note.assessment
    plan := soap_note.plan ++ "\n5. Additional considerations per physician review" }

/-! ## Embedding of the `/soap/generate` route (`routes/soapgen.py`) -/

/-- The request body of `/soap/generate` (`models.SOAPRequest`). -/
structure SOAPRequest where
  transcript : String
  patient_age : Option Int := none
  patient_gender : Option String := none
  chief_complaint : Option String := none
  doctor_notes : Option String := none

/-- HTTP error outcomes of the route: the 400 input rejection and the 500
wrapper (never produced by the modelled service, which is total). -/
inductive ApiError where
  | badRequest (detail : String)
  | internal (detail : String)
deriving DecidableEq

/-- The `/soap/generate` handler: rejects a missing/short transcript with a
400, otherwise returns the service result (assembly of the response envelope
with timestamp and author identity is routing-layer data, not modelled). -/
def generate_route (generator : Option Generator) (req : SOAPRequest) :
    Except ApiError GenResult :=
  if req.transcript = "" ∨ (pyStrip req.transcript).data.length < 10 then
    Except.error (ApiError.badRequest "Transcript too short for SOAP generation")
  else
    Except.ok (generate_soap_note generator req.transcript req.patient_age
      req.patient_gender req.chief_complaint req.doctor_notes)

/-! ## Embedding of `services/whisper_service.py` -/

/-- One Whisper segment as read by `calculate_confidence`: an optional
`avg_logprob` entry and the `text` entry (defaulted to `""` by the source's
`segment.get("text", "")`, folded into the field here). -/
structure Segment where
  avg_logprob : Option Rat
  text : String
deriving DecidableEq

/-- The loop body of `WhisperService.calculate_confidence`: accumulate
(log-probability mass, word weight) over a segment, skipping segments without
an `avg_logprob` entry. -/
def confidence_step (acc : Rat × Nat) (segment : Segment) : Rat × Nat :=
  match segment.avg_logprob with
  | some lp =>
    (acc.1 + lp * ((pyWords segment.text).length : Rat),
     acc.2 + (pyWords segment.text).length)
  | none => acc

/-- `WhisperService.calculate_confidence`; the input is `none` when the
result dict has no `"segments"` key. -/
def calculate_confidence (result : Option (List Segment)) : Option Rat :=
  match result with
  | none => none
  | some segments =>
    if segments = [] then none
    else
      let totals := segments.foldl confidence_step ((0 : Rat), (0 : Nat))
      if totals.2 = 0 then none
      else some (pyMax 0 (pyMin 1 ((totals.1 / (totals.2 : Rat) + 1) / 1)))

/-- The four-category lexicon of `WhisperService.extract_medical_keywords`
(source lines 84-93) — distinct from the three-category `medical_terms`
lexicon of the SOAP generator. -/
def whisper_medical_terms : List (String × List String) :=
  [("symptoms", ["pain", "headache", "fever", "nausea", "fatigue", "dizziness",
                 "shortness of breath", "chest pain", "abdominal pain", "back pain"]),
   ("medications", ["aspirin", "ibuprofen", "acetaminophen", "prescription",
                    "medication", "pills", "dose", "mg", "tablet"]),
   ("procedures", ["x-ray", "blood test", "ultrasound", "MRI", "CT scan",
                   "examination", "checkup", "surgery", "procedure"]),
   ("anatomy", ["heart", "lungs", "stomach", "head", "chest", "abdomen",
                "back", "arm", "leg", "neck", "shoulder"])]

/-- `WhisperService.extract_medical_keywords`. -/
def extract_medical_keywords (transcript : String) : List (String × List String) :=
  let transcript_lower := pyLower transcript
  whisper_medical_terms.map fun p => (p.1, p.2.filter fun term => strContains transcript_lower term)

/-! ## Specification-side summations for the confidence estimator -/

/-- The word-weighted log-probability mass of a segment list (segments
without an `avg_logprob` entry contribute nothing). -/
def segmentsWeightedLogprob (segments : List Segment) : Rat :=
  (segments.map fun segment =>
    match segment.avg_logprob with
    | some lp => lp * ((pyWords segment.text).length : Rat)
    | none => 0).sum

/-- The total word weight of a segment list (segments without an
`avg_logprob` entry contribute nothing). -/
def segmentsWordWeight (segments : List Segment) : Nat :=
  (segments.map fun segment =>
    match segment.avg_logprob with
    | some _ => (pyWords segment.text).length
    | none => 0).sum

/-! ## Concrete instances used as witnesses and counterexamples -/

/-- A backend whose reply is exactly the section label, so Subjective
post-processing yields the empty string. -/
def g_label_only : Generator := fun _ => some "Subjective:"

/-- A well-formed request (transcript far above the 10-character minimum). -/
def req_headache : SOAPRequest := { transcript := "patient has severe headache today" }

/-- The model-path context of `req_headache`. -/
def ctx_headache : Ctx :=
  prepare_context "patient has severe headache today" none none none none

/-- The model-path context of the chest-pain transcript used to exercise the
Assessment-only failure. -/
def ctx_chestpain : Ctx :=
  prepare_context "patient reports chest pain and headache today" none none none none

/-- A backend that raises exactly on the Assessment prompt of
`ctx_chestpain` and answers fixed text on every other prompt. -/
def g_fail_assessment : Generator := fun prompt =>
  if prompt = assessment_prompt ctx_chestpain then none
  else some "Patient is stable and improving."

/-- The Whisper segments of the spec's worked confidence example:
average log-probability -0.2 over ten words and -0.8 over two words. -/
def example_segments : List Segment :=
  [⟨some (-2/10), "w w w w w w w w w w"⟩, ⟨some (-8/10), "w w"⟩]

/-! ## Helper lemmas -/

/-- Two strings with the same character data are equal. -/
theorem str_ext {a b : String} (h : a.data = b.data) : a = b := by
  cases a
  cases b
  exact congrArg String.mk h

/-- Character data of a concatenation. -/
theorem str_data_append (a b : String) : (a ++ b).data = a.data ++ b.data := by
  cases a
  cases b
  rfl

/-- A string with a member character is not empty. -/
theorem str_ne_empty_of_mem {s : String} {c : Char} (h : c ∈ s.data) : s ≠ "" := by
  intro he
  rw [he] at h
  exact List.not_mem_nil c h

/-- `dropWhile` is the identity on a list whose first element fails the
predicate. -/
theorem dropWhile_eq_self_of_head {l : List Char} {c : Char} (h : l.head? = some c)
    (hc : pyIsSpace c = false) : l.dropWhile pyIsSpace = l := by
  cases l with
  | nil => simp at h
  | cons a t =>
    simp only [List.head?_cons, Option.some.injEq] at h
    subst h
    exact List.dropWhile_cons_of_neg (by simp [hc])

/-- Stripping is the identity on a string whose first and last characters are
not whitespace. -/
theorem pyStrip_id_of_ends {s : String} {c d : Char} (hh : s.data.head? = some c)
    (hl : s.data.getLast? = some d) (hc : pyIsSpace c = false) (hd : pyIsSpace d = false) :
    pyStrip s = s := by
  unfold pyStrip
  rw [dropWhile_eq_self_of_head hh hc]
  rw [dropWhile_eq_self_of_head (by rw [List.head?_reverse]; exact hl) hd]
  rw [List.reverse_reverse]

/-- Stripping a string that contains a non-whitespace character cannot give
the empty string. -/
theorem pyStrip_ne_empty {s : String} {c : Char} (hmem : c ∈ s.data)
    (hc : pyIsSpace c = false) : pyStrip s ≠ "" := by
  intro he
  have hdata : ((s.data.dropWhile pyIsSpace).reverse.dropWhile pyIsSpace).reverse = ([] : List Char) :=
    congrArg String.data he
  rw [List.reverse_eq_nil_iff, List.dropWhile_eq_nil_iff] at hdata
  have hall : pyIsSpace c = true := by
    rcases List.mem_append.1
        ((List.takeWhile_append_dropWhile (p := pyIsSpace) (l := s.data)) ▸ hmem) with h1 | h2
    · exact List.mem_takeWhile_imp h1
    · exact hdata c (List.mem_reverse.2 h2)
  simp [hall] at hc

/-- The subjective fallback template always produces non-empty text. -/
theorem extract_subjective_ne_empty (context : Ctx) :
    extract_subjective_from_transcript context ≠ "" := by
  have hp : 'p' ∈ " patient presents with ".data := by decide
  have hc : pyIsSpace 'p' = false := by decide
  simp only [extract_subjective_from_transcript]
  split
  · refine pyStrip_ne_empty (c := 'p') ?_ hc
    simp only [str_data_append, List.mem_append]
    tauto
  · refine pyStrip_ne_empty (c := 'p') ?_ hc
    simp only [str_data_append, List.mem_append]
    tauto

/-- The objective fallback template always produces non-empty text. -/
theorem extract_objective_ne_empty (context : Ctx) :
    extract_objective_from_transcript context ≠ "" := by
  simp only [extract_objective_from_transcript]
  split <;> split <;> decide

/-- The assessment fallback template always produces non-empty text. -/
theorem generate_assessment_template_ne_empty (context : Ctx) :
    generate_assessment_template context ≠ "" := by
  have hp : 'P' ∈ "Patient presents with ".data := by decide
  simp only [generate_assessment_template]
  split
  · refine str_ne_empty_of_mem (c := 'P') ?_
    simp only [str_data_append, List.mem_append]
    tauto
  · refine str_ne_empty_of_mem (c := 'P') ?_
    simp only [str_data_append, List.mem_append]
    tauto

/-- The plan fallback template always produces non-empty text. -/
theorem generate_plan_template_ne_empty (context : Ctx) :
    generate_plan_template context ≠ "" := by
  simp only [generate_plan_template]
  decide

/-- All four sections of a whole-pipeline template note are non-empty. -/
theorem template_soap_sections_ne_empty (transcript : String) (age : Option Int)
    (gender complaint : Option String) :
    (generate_template_soap transcript age gender complaint).subjective ≠ "" ∧
    (generate_template_soap transcript age gender complaint).objective ≠ "" ∧
    (generate_template_soap transcript age gender complaint).assessment ≠ "" ∧
    (generate_template_soap transcript age gender complaint).plan ≠ "" := by
  refine ⟨?_, ?_, ?_, ?_⟩ <;> simp only [generate_template_soap] <;>
    first
      | exact extract_subjective_ne_empty _
      | exact extract_objective_ne_empty _
      | exact generate_assessment_template_ne_empty _
      | exact generate_plan_template_ne_empty _

/-- First character of a concatenation, determined by the left part. -/
theorem str_head?_append {a : String} (b : String) {c : Char}
    (h : a.data.head? = some c) : (a ++ b).data.head? = some c := by
  rw [str_data_append]
  cases ha : a.data with
  | nil => rw [ha] at h; simp at h
  | cons x xs =>
    rw [ha] at h
    simp only [List.head?_cons, Option.some.injEq] at h
    subst h
    simp

/-- Last character of a concatenation, determined by the right part. -/
theorem str_getLast?_append (a : String) {b : String} {c : Char}
    (h : b.data.getLast? = some c) : (a ++ b).data.getLast? = some c := by
  rw [str_data_append]
  cases hb : b.data with
  | nil => rw [hb] at h; simp at h
  | cons x xs =>
    rw [hb] at h
    rw [List.getLast?_append_cons]
    exact h

/-- When a backend handle is present and its Subjective call raises, the
section comes from the subjective template. -/
theorem generate_subjective_of_fail {g : Generator} {context : Ctx}
    (h : g (subjective_prompt context) = none) :
    generate_subjective (some g) context = extract_subjective_from_transcript context := by
  simp only [generate_subjective, h]

/-- When the Subjective call returns text, the section is its post-processed
form, whatever that is. -/
theorem generate_subjective_of_ok {g : Generator} {context : Ctx} {raw : String}
    (h : g (subjective_prompt context) = some raw) :
    generate_subjective (some g) context =
      clean_generated_text (pyStrip (splitLast raw "Subjective:")) := by
  simp only [generate_subjective, h]

/-- An empty model-backed Subjective can only come from a successful call
whose post-processing is empty. -/
theorem generate_subjective_empty {g : Generator} {context : Ctx}
    (h : generate_subjective (some g) context = "") :
    ∃ raw, g (subjective_prompt context) = some raw ∧
      clean_generated_text (pyStrip (splitLast raw "Subjective:")) = "" := by
  cases hg : g (subjective_prompt context) with
  | none => exact absurd ((generate_subjective_of_fail hg) ▸ h) (extract_subjective_ne_empty context)
  | some raw => exact ⟨raw, rfl, (generate_subjective_of_ok hg) ▸ h⟩

/-- Objective analogue of `generate_subjective_of_fail`. -/
theorem generate_objective_of_fail {g : Generator} {context : Ctx}
    (h : g (objective_prompt context) = none) :
    generate_objective (some g) context = extract_objective_from_transcript context := by
  simp only [generate_objective, h]

/-- Objective analogue of `generate_subjective_of_ok`. -/
theorem generate_objective_of_ok {g : Generator} {context : Ctx} {raw : String}
    (h : g (objective_prompt context) = some raw) :
    generate_objective (some g) context =
      clean_generated_text (pyStrip (splitLast raw "Objective:")) := by
  simp only [generate_objective, h]

/-- Objective analogue of `generate_subjective_empty`. -/
theorem generate_objective_empty {g : Generator} {context : Ctx}
    (h : generate_objective (some g) context = "") :
    ∃ raw, g (objective_prompt context) = some raw ∧
      clean_generated_text (pyStrip (splitLast raw "Objective:")) = "" := by
  cases hg : g (objective_prompt context) with
  | none => exact absurd ((generate_objective_of_fail hg) ▸ h) (extract_objective_ne_empty context)
  | some raw => exact ⟨raw, rfl, (generate_objective_of_ok hg) ▸ h⟩

/-- Assessment analogue of `generate_subjective_of_fail`. -/
theorem generate_assessment_of_fail {g : Generator} {context : Ctx}
    (h : g (assessment_prompt context) = none) :
    generate_assessment (some g) context = generate_assessment_template context := by
  simp only [generate_assessment, h]

/-- Assessment analogue of `generate_subjective_of_ok`. -/
theorem generate_assessment_of_ok {g : Generator} {context : Ctx} {raw : String}
    (h : g (assessment_prompt context) = some raw) :
    generate_assessment (some g) context =
      clean_generated_text (pyStrip (splitLast raw "Assessment:")) := by
  simp only [generate_assessment, h]

/-- Assessment analogue of `generate_subjective_empty`. -/
theorem generate_assessment_empty {g : Generator} {context : Ctx}
    (h : generate_assessment (some g) context = "") :
    ∃ raw, g (assessment_prompt context) = some raw ∧
      clean_generated_text (pyStrip (splitLast raw "Assessment:")) = "" := by
  cases hg : g (assessment_prompt context) with
  | none => exact absurd ((generate_assessment_of_fail hg) ▸ h) (generate_assessment_template_ne_empty context)
  | some raw => exact ⟨raw, rfl, (generate_assessment_of_ok hg) ▸ h⟩

/-- Plan analogue of `generate_subjective_of_fail`. -/
theorem generate_plan_of_fail {g : Generator} {context : Ctx}
    (h : g (plan_prompt context) = none) :
    generate_plan (some g) context = generate_plan_template context := by
  simp only [generate_plan, h]

/-- Plan analogue of `generate_subjective_of_ok`. -/
theorem generate_plan_of_ok {g : Generator} {context : Ctx} {raw : String}
    (h : g (plan_prompt context) = some raw) :
    generate_plan (some g) context =
      clean_generated_text (pyStrip (splitLast raw "Plan:")) := by
  simp only [generate_plan, h]

/-- Plan analogue of `generate_subjective_empty`. -/
theorem generate_plan_empty {g : Generator} {context : Ctx}
    (h : generate_plan (some g) context = "") :
    ∃ raw, g (plan_prompt context) = some raw ∧
      clean_generated_text (pyStrip (splitLast raw "Plan:")) = "" := by
  cases hg : g (plan_prompt context) with
  | none => exact absurd ((generate_plan_of_fail hg) ▸ h) (generate_plan_template_ne_empty context)
  | some raw => exact ⟨raw, rfl, (generate_plan_of_ok hg) ▸ h⟩

/-- The confidence loop accumulates exactly the two specification sums. -/
theorem confidence_fold (segments : List Segment) (a : Rat) (w : Nat) :
    segments.foldl confidence_step (a, w) =
      (a + segmentsWeightedLogprob segments, w + segmentsWordWeight segments) := by
  induction segments generalizing a w with
  | nil => simp [segmentsWeightedLogprob, segmentsWordWeight]
  | cons s rest ih =>
    cases h : s.avg_logprob with
    | none =>
      simp [List.foldl_cons, confidence_step, h, segmentsWeightedLogprob, segmentsWordWeight, ih]
    | some lp =>
      simp [List.foldl_cons, confidence_step, h, segmentsWeightedLogprob,
        segmentsWordWeight, ih, add_assoc]

/-- Python's clamp `max(0, min(1, x))` lands in the unit interval. -/
theorem pyClamp_unit (x : Rat) : 0 ≤ pyMax 0 (pyMin 1 x) ∧ pyMax 0 (pyMin 1 x) ≤ 1 := by
  unfold pyMax pyMin
  split_ifs <;> constructor <;> linarith

/-- Shape of the subjective template when the symptom list is non-empty. -/
theorem extract_subjective_of_symptoms {context : Ctx}
    (h : keywordsGet context.medical_keywords "symptoms" ≠ []) :
    extract_subjective_from_transcript context =
      pyStrip ((if context.age ≠ "unknown" then context.age ++ " year old" else "") ++ " " ++
        (if context.gender ≠ "not specified" then context.gender else "") ++
        " patient presents with " ++ context.chief_complaint ++ "." ++ " Patient reports " ++
        String.intercalate ", " ((keywordsGet context.medical_keywords "symptoms").take 3) ++ ".") := by
  simp only [extract_subjective_from_transcript]
  rw [if_pos h]

/-! ## Claim theorems -/

/-- Claim C3: the transcription confidence estimator computes the
word-count-weighted mean `p` of per-segment average log-probabilities
(weight = whitespace-token count of the segment text) and returns
`clamp((p + 1) / 1, 0, 1)`, so any returned value lies in [0,1]; with a
missing `"segments"` key, no segments, or zero total word weight it returns
`none` ("unavailable"), never 0; and the worked example — log-probability
-0.2 over ten words and -0.8 over two — evaluates to 0.7. -/
theorem calculate_confidence_spec :
    (∀ result c, calculate_confidence result = some c → 0 ≤ c ∧ c ≤ 1) ∧
    calculate_confidence none = none ∧
    calculate_confidence (some []) = none ∧
    (∀ segments, segmentsWordWeight segments = 0 →
      calculate_confidence (some segments) = none) ∧
    (∀ segments, segments ≠ [] → segmentsWordWeight segments ≠ 0 →
      calculate_confidence (some segments) =
        some (pyMax 0 (pyMin 1
          ((segmentsWeightedLogprob segments / (segmentsWordWeight segments : Rat) + 1) / 1)))) ∧
    calculate_confidence (some example_segments) = some (7/10) := by
  refine ⟨?_, rfl, rfl, ?_, ?_, ?_⟩
  · intro result c h
    cases result with
    | none => simp [calculate_confidence] at h
    | some segments =>
      by_cases hnil : segments = []
      · subst hnil
        simp [calculate_confidence] at h
      · simp only [calculate_confidence, if_neg hnil] at h
        split at h
        · simp at h
        · rw [Option.some.injEq] at h
          subst h
          exact pyClamp_unit _
  · intro segments hw
    by_cases hnil : segments = []
    · subst hnil
      rfl
    · simp only [calculate_confidence, if_neg hnil]
      rw [confidence_fold]
      simp [hw]
  · intro segments hnil hw
    simp only [calculate_confidence, if_neg hnil]
    rw [confidence_fold]
    simp [hw]
  · have hw10 : (pyWords "w w w w w w w w w w").length = 10 := by decide
    have hw2 : (pyWords "w w").length = 2 := by decide
    simp [calculate_confidence, example_segments, confidence_step, hw10, hw2, pyMin, pyMax]
    norm_num

/-- Claim C4: with the generative backend handle absent, synthesis is
exactly the whole-pipeline template strategy: a complete note whose four
sections are the (always non-empty) template outputs and whose confidence
score is 0.75; the modelled function is total, so this path cannot error. -/
theorem backend_unavailable_template (transcript : String) (age : Option Int)
    (gender complaint notes : Option String) :
    generate_soap_note none transcript age gender complaint notes =
      generate_template_soap transcript age gender complaint ∧
    (generate_soap_note none transcript age gender complaint notes).confidence_score = 75/100 ∧
    (generate_soap_note none transcript age gender complaint notes).subjective ≠ "" ∧
    (generate_soap_note none transcript age gender complaint notes).objective ≠ "" ∧
    (generate_soap_note none transcript age gender complaint notes).assessment ≠ "" ∧
    (generate_soap_note none transcript age gender complaint notes).plan ≠ "" := by
  obtain ⟨h1, h2, h3, h4⟩ := template_soap_sections_ne_empty transcript age gender complaint
  exact ⟨rfl, rfl, h1, h2, h3, h4⟩

/-- Claim C6: the generate route rejects a request with the 400 input error
(`badRequest`, distinct from the 500 wrapper, which the modelled service
never triggers) exactly when the whitespace-stripped transcript has fewer
than 10 characters; in particular empty and whitespace-only transcripts are
rejected and no transcript with at least 10 stripped characters is. -/
theorem transcript_rejection_iff (generator : Option Generator) (req : SOAPRequest) :
    ((∃ e, generate_route generator req = Except.error e) ↔
      (pyStrip req.transcript).data.length < 10) ∧
    ∀ e, generate_route generator req = Except.error e →
      e = ApiError.badRequest "Transcript too short for SOAP generation" := by
  constructor
  · constructor
    · rintro ⟨e, he⟩
      by_cases hcond : req.transcript = "" ∨ (pyStrip req.transcript).data.length < 10
      · rcases hcond with h | h
        · rw [h]
          decide
        · exact h
      · simp only [generate_route, if_neg hcond] at he
        exact Except.noConfusion he
    · intro h
      refine ⟨ApiError.badRequest "Transcript too short for SOAP generation", ?_⟩
      simp only [generate_route]
      rw [if_pos (Or.inr h)]
  · intro e he
    by_cases hcond : req.transcript = "" ∨ (pyStrip req.transcript).data.length < 10
    · simp only [generate_route] at he
      rw [if_pos hcond] at he
      injection he with h
      exact h.symm
    · simp only [generate_route, if_neg hcond] at he
      exact Except.noConfusion he

/-- Claim C9: refinement returns a new note whose Subjective is the old one
with the refinement text appended as a bracketed note, whose Plan is the old
one with the fixed physician-review line appended, and whose Objective and
Assessment are character-for-character unchanged. -/
theorem refine_soap_note_spec (note : SOAPNote) (refinement_notes : String) :
    (refine_soap_note note refinement_notes).subjective =
      note.subjective ++ (" [Refined based on: " ++ refinement_notes ++ "]") ∧
    (refine_soap_note note refinement_notes).objective = note.objective ∧
    (refine_soap_note note refinement_notes).assessment = note.assessment ∧
    (refine_soap_note note refinement_notes).plan =
      note.plan ++ "\n5. Additional considerations per physician review" :=
  ⟨rfl, rfl, rfl, rfl⟩

/-- Claim C10: the context builders treat Python-falsy metadata as absent —
age 0 and empty-string gender / chief complaint produce exactly the same
context and template note as an omitted field (so age 0 never reaches the
subjective template output). -/
theorem falsy_metadata_defaults (t : String) (a : Option Int) (g c n : Option String) :
    prepare_context t (some 0) g c n = prepare_context t none g c n ∧
    prepare_context t a (some "") c n = prepare_context t a none c n ∧
    prepare_context t a g (some "") n = prepare_context t a g none n ∧
    generate_template_soap t (some 0) g c = generate_template_soap t none g c ∧
    generate_template_soap t a (some "") c = generate_template_soap t a none c ∧
    generate_template_soap t a g (some "") = generate_template_soap t a g none ∧
    (generate_template_soap t (some 0) g c).subjective =
      (generate_template_soap t none g c).subjective :=
  ⟨rfl, rfl, rfl, rfl, rfl, rfl, rfl⟩

/-- Claim C1 counterexample: on the model-backed path a backend reply equal
to the bare section label post-processes to the empty string and the route
returns it as-is — an ok response whose Subjective field is empty (while the
other sections of the same response are not), refuting the claimed
non-emptiness guarantee for the model-backed path. -/
theorem generate_route_empty_section_cex :
    generate_route (some g_label_only) req_headache =
      Except.ok (generate_soap_note (some g_label_only)
        "patient has severe headache today" none none none none) ∧
    (generate_soap_note (some g_label_only)
      "patient has severe headache today" none none none none).subjective = "" ∧
    (generate_soap_note (some g_label_only)
      "patient has severe headache today" none none none none).objective ≠ "" := by
  refine ⟨rfl, by decide, by decide⟩

/-- Claim C1 (amended): the generate entry point either rejects the input
with the 400 input error or returns a result in which all four section
fields are present strings; all four are non-empty on the whole-pipeline
template path, and on the model-backed path a section can be empty only when
its backend call succeeded and post-processing of the reply was empty — so
every backend failure (whole-pipeline or per-section) still yields non-empty
sections. -/
theorem generate_route_sections_spec (generator : Option Generator) (req : SOAPRequest) :
    (∃ d, generate_route generator req = Except.error (ApiError.badRequest d)) ∨
    ∃ r, generate_route generator req = Except.ok r ∧
      (generator = none →
        r.subjective ≠ "" ∧ r.objective ≠ "" ∧ r.assessment ≠ "" ∧ r.plan ≠ "") ∧
      ∀ g, generator = some g →
        (r.subjective = "" → ∃ raw,
          g (subjective_prompt (prepare_context req.transcript req.patient_age
            req.patient_gender req.chief_complaint req.doctor_notes)) = some raw ∧
          clean_generated_text (pyStrip (splitLast raw "Subjective:")) = "") ∧
        (r.objective = "" → ∃ raw,
          g (objective_prompt (prepare_context req.transcript req.patient_age
            req.patient_gender req.chief_complaint req.doctor_notes)) = some raw ∧
          clean_generated_text (pyStrip (splitLast raw "Objective:")) = "") ∧
        (r.assessment = "" → ∃ raw,
          g (assessment_prompt (prepare_context req.transcript req.patient_age
            req.patient_gender req.chief_complaint req.doctor_notes)) = some raw ∧
          clean_generated_text (pyStrip (splitLast raw "Assessment:")) = "") ∧
        (r.plan = "" → ∃ raw,
          g (plan_prompt (prepare_context req.transcript req.patient_age
            req.patient_gender req.chief_complaint req.doctor_notes)) = some raw ∧
          clean_generated_text (pyStrip (splitLast raw "Plan:")) = "") := by
  by_cases hrej : req.transcript = "" ∨ (pyStrip req.transcript).data.length < 10
  · refine Or.inl ⟨"Transcript too short for SOAP generation", ?_⟩
    simp only [generate_route]
    rw [if_pos hrej]
  · refine Or.inr ⟨generate_soap_note generator req.transcript req.patient_age
      req.patient_gender req.chief_complaint req.doctor_notes, ?_, ?_, ?_⟩
    · simp only [generate_route]
      rw [if_neg hrej]
    · rintro rfl
      exact template_soap_sections_ne_empty _ _ _ _
    · rintro g rfl
      exact ⟨fun h => generate_subjective_empty h, fun h => generate_objective_empty h,
        fun h => generate_assessment_empty h, fun h => generate_plan_empty h⟩

/-- Claim C2 counterexample: a backend reply equal to the bare label
post-processes to the empty string, yet the Subjective section is the empty
string itself, not the (non-empty) subjective template — the claimed
empty-output fallback does not exist in the code. -/
theorem per_section_empty_kept_cex :
    clean_generated_text (pyStrip (splitLast "Subjective:" "Subjective:")) = "" ∧
    generate_subjective (some g_label_only) ctx_headache = "" ∧
    generate_subjective (some g_label_only) ctx_headache ≠
      extract_subjective_from_transcript ctx_headache ∧
    extract_subjective_from_transcript ctx_headache ≠ "" := by
  refine ⟨by decide, by decide, by decide, by decide⟩

/-- Claim C2 (amended): when a section's backend call raises, that section —
and only that section — falls back to its deterministic template; each
section depends only on the backend's reply to its own prompt, so the other
three are unaffected.  An empty post-processed reply is returned as-is, not
replaced (see the counterexample). -/
theorem per_section_fallback_spec (context : Ctx) (g gAlt : Generator) :
    (g (subjective_prompt context) = none →
      generate_subjective (some g) context = extract_subjective_from_transcript context) ∧
    (g (objective_prompt context) = none →
      generate_objective (some g) context = extract_objective_from_transcript context) ∧
    (g (assessment_prompt context) = none →
      generate_assessment (some g) context = generate_assessment_template context) ∧
    (g (plan_prompt context) = none →
      generate_plan (some g) context = generate_plan_template context) ∧
    (g (subjective_prompt context) = gAlt (subjective_prompt context) →
      generate_subjective (some g) context = generate_subjective (some gAlt) context) ∧
    (g (objective_prompt context) = gAlt (objective_prompt context) →
      generate_objective (some g) context = generate_objective (some gAlt) context) ∧
    (g (assessment_prompt context) = gAlt (assessment_prompt context) →
      generate_assessment (some g) context = generate_assessment (some gAlt) context) ∧
    (g (plan_prompt context) = gAlt (plan_prompt context) →
      generate_plan (some g) context = generate_plan (some gAlt) context) := by
  refine ⟨fun h => generate_subjective_of_fail h, fun h => generate_objective_of_fail h,
    fun h => generate_assessment_of_fail h, fun h => generate_plan_of_fail h,
    ?_, ?_, ?_, ?_⟩
  · intro h
    simp only [generate_subjective]
    rw [h]
  · intro h
    simp only [generate_objective]
    rw [h]
  · intro h
    simp only [generate_assessment]
    rw [h]
  · intro h
    simp only [generate_plan]
    rw [h]

/-- Claim C5: when the backend is available and exactly the Assessment call
raises, the result still carries the template-derived Assessment, the other
three sections are the post-processed backend replies whenever those calls
return text, and the confidence score is the fixed model-backed 0.85
regardless of the per-section fallback. -/
theorem assessment_failure_isolation (g : Generator) (transcript : String)
    (age : Option Int) (gender complaint notes : Option String)
    (hfail : g (assessment_prompt (prepare_context transcript age gender complaint notes)) = none) :
    (generate_soap_note (some g) transcript age gender complaint notes).assessment =
      generate_assessment_template (prepare_context transcript age gender complaint notes) ∧
    (generate_soap_note (some g) transcript age gender complaint notes).confidence_score = 85/100 ∧
    (∀ raw, g (subjective_prompt (prepare_context transcript age gender complaint notes)) = some raw →
      (generate_soap_note (some g) transcript age gender complaint notes).subjective =
        clean_generated_text (pyStrip (splitLast raw "Subjective:"))) ∧
    (∀ raw, g (objective_prompt (prepare_context transcript age gender complaint notes)) = some raw →
      (generate_soap_note (some g) transcript age gender complaint notes).objective =
        clean_generated_text (pyStrip (splitLast raw "Objective:"))) ∧
    (∀ raw, g (plan_prompt (prepare_context transcript age gender complaint notes)) = some raw →
      (generate_soap_note (some g) transcript age gender complaint notes).plan =
        clean_generated_text (pyStrip (splitLast raw "Plan:"))) := by
  refine ⟨?_, rfl, ?_, ?_, ?_⟩
  · exact generate_assessment_of_fail hfail
  · intro raw h
    exact generate_subjective_of_ok h
  · intro raw h
    exact generate_objective_of_ok h
  · intro raw h
    exact generate_plan_of_ok h

set_option maxRecDepth 100000 in
/-- Claim C5 witness: a concrete backend that raises only on the Assessment
prompt of the chest-pain transcript. -/
theorem assessment_failure_isolation_witness :
    (generate_soap_note (some g_fail_assessment)
      "patient reports chest pain and headache today" none none none none).assessment =
      generate_assessment_template (prepare_context
        "patient reports chest pain and headache today" none none none none) ∧
    (generate_soap_note (some g_fail_assessment)
      "patient reports chest pain and headache today" none none none none).confidence_score = 85/100 :=
  ⟨(assessment_failure_isolation g_fail_assessment
      "patient reports chest pain and headache today" none none none none (by decide)).1,
   (assessment_failure_isolation g_fail_assessment
      "patient reports chest pain and headache today" none none none none (by decide)).2.1⟩

/-- Claim C7 counterexample: the lexicon scan used by the synthesis context
builder has no `procedures` category — its keys are three, not four, even on
a transcript full of procedure terms; the four-category map (with
`procedures`) is the separate Whisper-service keyword extractor. -/
theorem extract_medical_terms_missing_procedures_cex :
    (extract_medical_terms "x-ray and blood test scheduled").map Prod.fst ≠
      ["symptoms", "medications", "procedures", "anatomy"] ∧
    (extract_medical_keywords "x-ray and blood test scheduled").map Prod.fst =
      ["symptoms", "medications", "procedures", "anatomy"] := by
  exact ⟨by decide, rfl⟩

/-- Claim C7 (amended): for every transcript, the lexicon scan used by the
synthesis context builder produces a mapping whose keys are exactly the
three categories `symptoms`, `medications`, `anatomy` (no `procedures`
category exists in this lexicon), each mapped to the case-insensitive
substring hits of that category's lexicon, in lexicon-definition order and
deduplicated per category. -/
theorem extract_medical_terms_spec (t : String) :
    (extract_medical_terms t).map Prod.fst = ["symptoms", "medications", "anatomy"] ∧
    ∀ category terms, (category, terms) ∈ extract_medical_terms t →
      terms = (lexicon_terms category).filter (fun term => strContains (pyLower t) term) ∧
      terms.Sublist (lexicon_terms category) ∧ terms.Nodup := by
  refine ⟨rfl, ?_⟩
  intro category terms hmem
  simp only [extract_medical_terms, medical_terms, List.map_cons, List.map_nil,
    List.mem_cons, List.not_mem_nil, or_false, Prod.mk.injEq] at hmem
  rcases hmem with ⟨rfl, rfl⟩ | ⟨rfl, rfl⟩ | ⟨rfl, rfl⟩ <;>
    exact ⟨rfl, List.filter_sublist _, (List.filter_sublist _).nodup (by decide)⟩

/-- Claim C8: for age 34, gender "male", chief complaint "headache" and any
transcript containing "fever" and "nausea" (case-insensitively, as the
lexicon scan matches), the subjective template output is exactly the
sentence "34 year old male patient presents with headache." followed by a
symptom sentence listing at most 3 lexicon symptoms in lexicon-definition
order. -/
theorem subjective_template_example (t : String)
    (hf : strContains (pyLower t) "fever" = true)
    (_hn : strContains (pyLower t) "nausea" = true) :
    ∃ listed : List String,
      listed.Sublist (lexicon_terms "symptoms") ∧ listed.length ≤ 3 ∧ listed ≠ [] ∧
      (generate_template_soap t (some 34) (some "male") (some "headache")).subjective =
        "34 year old male patient presents with headache." ++ " Patient reports " ++
          String.intercalate ", " listed ++ "." := by
  have hkg : keywordsGet (extract_medical_terms t) "symptoms" =
      (lexicon_terms "symptoms").filter (fun term => strContains (pyLower t) term) := rfl
  have hmemf : "fever" ∈ keywordsGet (extract_medical_terms t) "symptoms" := by
    rw [hkg]
    exact List.mem_filter.2 ⟨by decide, hf⟩
  have hne : keywordsGet (extract_medical_terms t) "symptoms" ≠ [] :=
    List.ne_nil_of_mem hmemf
  refine ⟨(keywordsGet (extract_medical_terms t) "symptoms").take 3, ?_, ?_, ?_, ?_⟩
  · exact (List.take_sublist _ _).trans (hkg ▸ List.filter_sublist _)
  · exact List.length_take_le _ _
  · intro h
    apply hne
    have hlen := congrArg List.length h
    rw [List.length_take] at hlen
    simp only [List.length_nil] at hlen
    rcases Nat.min_eq_zero_iff.1 hlen with h3 | h0
    · exact absurd h3 (by decide)
    · exact List.eq_nil_of_length_eq_zero h0
  · have hproj : (generate_template_soap t (some 34) (some "male") (some "headache")).subjective
        = extract_subjective_from_transcript
            ⟨t, pyOrInt (some 34) "unknown", pyOrStr (some "male") "not specified",
             pyOrStr (some "headache") "chief complaint not specified", "",
             extract_medical_terms t⟩ := rfl
    rw [hproj, extract_subjective_of_symptoms hne]
    dsimp only
    have hbase : ((if (pyOrInt (some 34) "unknown") ≠ "unknown"
          then (pyOrInt (some 34) "unknown") ++ " year old" else "") ++ " " ++
        (if (pyOrStr (some "male") "not specified") ≠ "not specified"
          then pyOrStr (some "male") "not specified" else "") ++
        " patient presents with " ++
        pyOrStr (some "headache") "chief complaint not specified" ++ ".")
        = "34 year old male patient presents with headache." := by decide
    rw [hbase]
    have hh : ((("34 year old male patient presents with headache." ++ " Patient reports ") ++
        String.intercalate ", " ((keywordsGet (extract_medical_terms t) "symptoms").take 3)) ++
        ".").data.head? = some '3' :=
      str_head?_append _ (str_head?_append _ (by decide))
    have hl : ((("34 year old male patient presents with headache." ++ " Patient reports ") ++
        String.intercalate ", " ((keywordsGet (extract_medical_terms t) "symptoms").take 3)) ++
        ".").data.getLast? = some '.' :=
      str_getLast?_append _ (by decide)
    rw [pyStrip_id_of_ends hh hl (by decide) (by decide)]

/-- Claim C8 witness: the concrete transcript "patient is here with fever
and nausea". -/
theorem subjective_template_example_witness :
    strContains (pyLower "patient is here with fever and nausea") "fever" = true ∧
    strContains (pyLower "patient is here with fever and nausea") "nausea" = true ∧
    ∃ listed : List String,
      listed.Sublist (lexicon_terms "symptoms") ∧ listed.length ≤ 3 ∧ listed ≠ [] ∧
      (generate_template_soap "patient is here with fever and nausea"
          (some 34) (some "male") (some "headache")).subjective =
        "34 year old male patient presents with headache." ++ " Patient reports " ++
          String.intercalate ", " listed ++ "." :=
  ⟨by decide, by decide,
   subjective_template_example "patient is here with fever and nausea" (by decide) (by decide)⟩
